import Mathlib

/-!
Shallow embedding of the erfiume station data acquisition and enrichment
pipeline (`app/erfiume/apis.py` and the rendering function of
`app/erfiume/tgbot.py`).

Python floats are modelled as exact rationals (`Rat`): the embedded code
performs no floating-point arithmetic, only comparisons and copies, so the
embedding is faithful on all inputs representable as double-precision values.
Network I/O is modelled by passing the decoded JSON payloads as explicit
arguments; Python exceptions are modelled by `Except` / an explicit
`raised` field.
-/

namespace Erfiume

/-- `UNKNOWN_VALUE = -9999.0` (apis.py line 18). -/
def UNKNOWN_VALUE : Rat := -9999

/-- Python `x or default` on an optional float: `None` and falsy `0.0` are
replaced by the default, any other value is kept. -/
def pyOrFloat (v : Option Rat) (d : Rat) : Rat :=
  match v with
  | none => d
  | some x => if x = 0 then d else x

/-- The `Stazione` dataclass (apis.py lines 21-39). `value` keeps its declared
Python type `float | None`; `__post_init__` (modelled by `Stazione.postInit`
below) makes it non-`None` after construction. -/
structure Stazione where
  timestamp : Int
  idstazione : String
  ordinamento : Int
  nomestaz : String
  lon : String
  lat : String
  soglia1 : Rat
  soglia2 : Rat
  soglia3 : Rat
  value : Option Rat
deriving Repr, DecidableEq

/-- `Stazione.__post_init__`: `self.value = self.value or UNKNOWN_VALUE`. -/
def Stazione.postInit (s : Stazione) : Stazione :=
  { s with value := some (pyOrFloat s.value UNKNOWN_VALUE) }

/-- The dataclass constructor `Stazione(...)`, which always runs
`__post_init__`. -/
def mkStazione (timestamp : Int) (idstazione : String) (ordinamento : Int)
    (nomestaz : String) (lon lat : String) (soglia1 soglia2 soglia3 : Rat)
    (value : Option Rat) : Stazione :=
  Stazione.postInit
    { timestamp := timestamp, idstazione := idstazione,
      ordinamento := ordinamento, nomestaz := nomestaz, lon := lon, lat := lat,
      soglia1 := soglia1, soglia2 := soglia2, soglia3 := soglia3,
      value := value }

/-- The `Valore` dataclass (apis.py lines 92-105): one time-series reading.
`__post_init__` coerces `t` to `int`; `t` is already an `Int` here. -/
structure Valore where
  t : Int
  v : Rat
deriving Repr, DecidableEq

/-- Python exceptions that can arise in the embedded code paths. -/
inductive PyError where
  | typeError
  | keyError
  | indexError
  | httpStatusError
  | valueError
deriving Repr, DecidableEq

/-! ## Rendering / classification

`Stazione.create_station_message` (apis.py lines 56-89) and the module-level
`create_station_message` (tgbot.py lines 53-82) both compute an alarm emoji
from the value and the three thresholds with the same if/elif ladder; the
apis.py version additionally replaces the displayed value with the
"non disponibile" label and blanks the alarm when the value is the UNKNOWN
sentinel.  The functions below return the pair
(displayed value, alarm string), where a displayed value of `none` stands for
the "non disponibile" label.  Timestamp formatting is not modelled (pure
string rendering, no claim depends on it). -/

/-- The alarm if/elif ladder shared verbatim by apis.py lines 71-77 and
tgbot.py lines 68-74: first match wins, default red. -/
def alarmLadder (value yellow orange red : Rat) : String :=
  if value ≤ yellow then "🟢"
  else if value > yellow ∧ value ≤ orange then "🟡"
  else if value ≥ orange ∧ value ≤ red then "🟠"
  else "🔴"

/-- The value/alarm computation of `Stazione.create_station_message`
(apis.py lines 67-81): ladder first, then the UNKNOWN-sentinel override. -/
def apisValueAlarm (value yellow orange red : Rat) : Option Rat × String :=
  let alarm := alarmLadder value yellow orange red
  if value = UNKNOWN_VALUE then (none, "") else (some value, alarm)

/-- The value/alarm computation of `create_station_message`
(tgbot.py lines 64-74): the ladder only, no UNKNOWN-sentinel handling. -/
def tgbotValueAlarm (value yellow orange red : Rat) : Option Rat × String :=
  (some value, alarmLadder value yellow orange red)

/-- `Stazione.create_station_message` on a station (apis.py).  `float(self.value)`
is only reached on constructed stations, where `value` is never `none`
(see the post-init theorems); `none` would raise in Python and is mapped to
the sentinel here only to keep the function total. -/
def Stazione.create_station_message (s : Stazione) : Option Rat × String :=
  apisValueAlarm (s.value.getD UNKNOWN_VALUE) s.soglia1 s.soglia2 s.soglia3

/-- `create_station_message` of tgbot.py on a station. -/
def tgbot_create_station_message (s : Stazione) : Option Rat × String :=
  tgbotValueAlarm (s.value.getD UNKNOWN_VALUE) s.soglia1 s.soglia2 s.soglia3

/-! ## Roster fetch -/

/-- One decoded JSON record of the roster response (apis.py lines 142-153).
An outer `none` means the key is absent from the record (absence of a
required key makes the `Stazione(**record)` call raise `TypeError`).
`value` is additionally nullable: `some none` is JSON `null`.
Only the `value` field is nullable in upstream responses; the other fields,
when present, carry well-typed values. -/
structure RosterRecord where
  hasTime : Bool
  idstazione : Option String
  ordinamento : Option Int
  nomestaz : Option String
  lon : Option String
  lat : Option String
  soglia1 : Option Rat
  soglia2 : Option Rat
  soglia3 : Option Rat
  value : Option (Option Rat)
deriving Repr, DecidableEq

/-- `Stazione(timestamp=time, **{k: v if v is not None else UNKNOWN_VALUE
for k, v in stazione.items()})` (apis.py lines 144-150): a JSON `null` value
becomes the UNKNOWN sentinel before construction; a record missing a required
dataclass field makes the constructor raise `TypeError`. -/
def buildStazione (time : Int) (r : RosterRecord) : Except PyError Stazione :=
  match r.idstazione, r.ordinamento, r.nomestaz, r.lon, r.lat,
      r.soglia1, r.soglia2, r.soglia3, r.value with
  | some ids, some ord, some nome, some lo, some la,
      some g1, some g2, some g3, some v =>
    Except.ok (mkStazione time ids ord nome lo la g1 g2 g3
      (some (match v with | none => UNKNOWN_VALUE | some x => x)))
  | _, _, _, _, _, _, _, _, _ => Except.error PyError.typeError

/-- The roster list comprehension (apis.py lines 143-153): records carrying a
`time` key are skipped; the remaining records are converted in order; the
first constructor exception aborts the whole comprehension (no partial
roster). -/
def buildRoster (time : Int) : List RosterRecord → Except PyError (List Stazione)
  | [] => Except.ok []
  | r :: rest =>
    if r.hasTime then buildRoster time rest
    else
      match buildStazione time r with
      | Except.error e => Except.error e
      | Except.ok s =>
        match buildRoster time rest with
        | Except.error e => Except.error e
        | Except.ok ss => Except.ok (s :: ss)

/-- Outcome of `fetch_stations_data` as seen by its caller.  `malformed` is
the `except (KeyError, IndexError)` clause (apis.py lines 157-159): logged
with context and re-raised — the spec's `MalformedResponseError`.
`upstream` is the `except httpx.HTTPStatusError` clause (lines 154-156).
`unhandled e` is any other exception, which escapes the function without
being logged. -/
inductive FetchError where
  | upstream
  | malformed
  | unhandled (e : PyError)
deriving Repr, DecidableEq

/-- `fetch_stations_data` (apis.py lines 132-159) applied to the decoded JSON
payload of a successful HTTP response: runs the comprehension and routes any
exception through the except clauses — only `KeyError`/`IndexError` become
the logged-and-re-raised `malformed` outcome; anything else (e.g. the
`TypeError` from a missing dataclass field) escapes unlogged. -/
def fetch_stations_data (time : Int) (data : List RosterRecord) :
    Except FetchError (List Stazione) :=
  match buildRoster time data with
  | Except.ok stations => Except.ok stations
  | Except.error PyError.keyError => Except.error FetchError.malformed
  | Except.error PyError.indexError => Except.error FetchError.malformed
  | Except.error e => Except.error (FetchError.unhandled e)

/-! ## Enrichment coordinator -/

/-- The per-station outcome of the concurrent `fetch_time_series` calls:
`asyncio.gather(*tasks, return_exceptions=True)` (apis.py line 194) yields,
per station, either the fetched reading list or the exception it raised. -/
abbrev FetchResult := Except PyError (List Valore)

/-- Python `max(d :: ds, key=lambda x: x.t)`: the first element attaining the
maximum `t` (a later element replaces the current best only when strictly
greater). -/
def maxByT (x : Valore) (xs : List Valore) : Valore :=
  xs.foldl (fun acc y => if y.t > acc.t then y else acc) x

/-- Result of a run of `enrich_data` (apis.py lines 191-203): the post-state
of the station list, the names of the stations whose failure was logged by
`logger.error`, and the exception escaping the coordinator, if any. -/
structure EnrichOutcome where
  stations : List Stazione
  loggedFailures : List String
  raised : Option PyError
deriving Repr, DecidableEq

/-- The `for stazione, dati in zip(stations, results)` loop of `enrich_data`
(apis.py lines 196-202): a failed fetch is logged and leaves its station
unmodified; a successful fetch overwrites `value` and `timestamp` from the
max-`time` reading; `max()` on an empty reading list raises `ValueError`,
which stops the loop (stations already processed keep their updates, the
rest keep their pre-state) and escapes the coordinator. -/
def enrichLoop : List (Stazione × FetchResult) → EnrichOutcome
  | [] => ⟨[], [], none⟩
  | (s, Except.error _) :: rest =>
    let o := enrichLoop rest
    ⟨s :: o.stations, s.nomestaz :: o.loggedFailures, o.raised⟩
  | (s, Except.ok []) :: rest =>
    ⟨s :: rest.map Prod.fst, [], some PyError.valueError⟩
  | (s, Except.ok (d :: ds)) :: rest =>
    let m := maxByT d ds
    let o := enrichLoop rest
    ⟨{ s with value := some m.v, timestamp := m.t } :: o.stations,
      o.loggedFailures, o.raised⟩

/-- `enrich_data` (apis.py lines 191-203) given the settled per-station
results of the gather. -/
def enrich_data (stations : List Stazione) (results : List FetchResult) :
    EnrichOutcome :=
  enrichLoop (stations.zip results)

/-! ## Persistence projection -/

/-- The dictionary produced by `Stazione.to_dict` (apis.py lines 41-54),
suitable for DynamoDB storage.  `Decimal(str(x))` converts a float to the
exact decimal value of its shortest round-tripping representation; over
exact rationals the conversion preserves the value exactly, so the decimal
fields are `Rat` holding the same value. -/
structure DynamoRecord where
  timestamp : Int
  idstazione : String
  ordinamento : Int
  nomestaz : String
  lon : String
  lat : String
  soglia1 : Rat
  soglia2 : Rat
  soglia3 : Rat
  value : Rat
deriving Repr, DecidableEq

/-- `Stazione.to_dict` (apis.py lines 41-54).  `value` is never `none` on a
constructed station (see the post-init theorems); Python would raise on
`Decimal(str(None))`, and the default here only keeps the function total. -/
def Stazione.to_dict (s : Stazione) : DynamoRecord :=
  { timestamp := s.timestamp, idstazione := s.idstazione,
    ordinamento := s.ordinamento, nomestaz := s.nomestaz,
    lon := s.lon, lat := s.lat,
    soglia1 := s.soglia1, soglia2 := s.soglia2, soglia3 := s.soglia3,
    value := s.value.getD UNKNOWN_VALUE }

/-- Modelled from the spec: the storage collaborator
(`app/erfiume/storage.py`, imported by tgbot.py but not present under the
sources) reconstructs a `Stazione` from its persisted record; per the spec
the projection/reconstruction round-trip preserves every semantic field
exactly, with numeric fields compared as exact decimal values. -/
def stazioneFromRecord (d : DynamoRecord) : Stazione :=
  { timestamp := d.timestamp, idstazione := d.idstazione,
    ordinamento := d.ordinamento, nomestaz := d.nomestaz,
    lon := d.lon, lat := d.lat,
    soglia1 := d.soglia1, soglia2 := d.soglia2, soglia3 := d.soglia3,
    value := some d.value }

/-! ## Concrete fixtures used by witnesses and counterexamples -/

/-- A concrete constructed station with an ordinary snapshot value. -/
def stationA : Stazione := mkStazione 1 "id-A" 1 "A" "11.1" "44.4" 1 2 3 (some 5)

/-- A concrete constructed station for the failure slot of an enrichment run. -/
def stationB : Stazione := mkStazione 1 "id-B" 2 "B" "11.2" "44.5" 1 2 3 none

/-- A roster record missing its `nomestaz` key. -/
def badRecord : RosterRecord :=
  { hasTime := false, idstazione := some "x", ordinamento := some 1,
    nomestaz := none, lon := some "11.1", lat := some "44.4",
    soglia1 := some 1, soglia2 := some 2, soglia3 := some 3,
    value := some (some 1) }

/-- A metadata/echo roster record carrying a `time` key. -/
def timeRecord : RosterRecord :=
  { hasTime := true, idstazione := none, ordinamento := none,
    nomestaz := none, lon := none, lat := none,
    soglia1 := none, soglia2 := none, soglia3 := none, value := none }

/-- A well-formed roster record whose `value` is JSON `null`. -/
def goodRecord : RosterRecord :=
  { hasTime := false, idstazione := some "x", ordinamento := some 1,
    nomestaz := some "S", lon := some "11.1", lat := some "44.4",
    soglia1 := some 1, soglia2 := some 2, soglia3 := some 3,
    value := some none }

/-- The station built from `goodRecord` at roster time 7. -/
def stationS : Stazione :=
  mkStazione 7 "x" 1 "S" "11.1" "44.4" 1 2 3 (some UNKNOWN_VALUE)

/-! ## Helper lemmas -/

theorem maxByT_cons (x y : Valore) (ys : List Valore) :
    maxByT x (y :: ys) = maxByT (if y.t > x.t then y else x) ys := rfl

theorem maxByT_mem (x : Valore) (xs : List Valore) : maxByT x xs ∈ x :: xs := by
  induction xs generalizing x with
  | nil => simp [maxByT]
  | cons y ys ih =>
    rw [maxByT_cons]
    rcases List.mem_cons.mp (ih (if y.t > x.t then y else x)) with h | h
    · rw [h]
      by_cases hc : y.t > x.t <;> simp [hc]
    · simp [List.mem_cons.mpr (Or.inr (List.mem_cons.mpr (Or.inr h)))]

theorem maxByT_ge (x : Valore) (xs : List Valore) :
    ∀ z ∈ x :: xs, z.t ≤ (maxByT x xs).t := by
  induction xs generalizing x with
  | nil => intro z hz; rw [List.mem_singleton.mp hz]; simp [maxByT]
  | cons y ys ih =>
    intro z hz
    rw [maxByT_cons]
    have hacc : x.t ≤ (if y.t > x.t then y else x).t ∧
        y.t ≤ (if y.t > x.t then y else x).t := by
      by_cases hc : y.t > x.t <;> simp [hc] <;> omega
    have hrec := ih (if y.t > x.t then y else x)
    rcases List.mem_cons.mp hz with h | h
    · subst h
      exact le_trans hacc.1 (hrec _ (List.mem_cons_self _ _))
    · rcases List.mem_cons.mp h with h2 | h2
      · subst h2
        exact le_trans hacc.2 (hrec _ (List.mem_cons_self _ _))
      · exact hrec z (List.mem_cons.mpr (Or.inr h2))

/-! ## Claims -/

/-- C1: the claim says a station whose series fetch succeeds with an empty
reading list is left unmodified with no error logged and no exception
escaping `enrich_data`.  The code instead calls `max()` on the empty list,
which raises `ValueError`; the exception escapes the coordinator.  This
theorem evaluates the coordinator at the failing input: the station is
indeed unmodified and nothing is logged, but a `ValueError` escapes. -/
theorem C1_empty_series_raises_value_error :
    (enrich_data [stationA] [Except.ok []]).raised = some PyError.valueError ∧
    (enrich_data [stationA] [Except.ok []]).stations = [stationA] ∧
    (enrich_data [stationA] [Except.ok []]).loggedFailures = [] :=
  ⟨rfl, rfl, rfl⟩

/-- C2 counterexample: rendering a station through tgbot.py's
`create_station_message` with the UNKNOWN sentinel value and thresholds
(1, 2, 3) shows the green alarm and the raw sentinel value, not the
"not available" label with no color. -/
theorem C2_tgbot_unknown_shows_green :
    tgbotValueAlarm UNKNOWN_VALUE 1 2 3 = (some UNKNOWN_VALUE, "🟢") ∧
    ((some UNKNOWN_VALUE : Option Rat), "🟢") ≠ ((none : Option Rat), "") := by
  refine ⟨?_, by simp⟩
  norm_num [tgbotValueAlarm, alarmLadder, UNKNOWN_VALUE]

/-- C2 amended: in the apis.py render path (`Stazione.create_station_message`)
a station whose current value is the UNKNOWN sentinel is classified Unknown
for every combination of threshold values: no alert color is shown and the
displayed value is replaced by the "not available" label.  The tgbot.py
render path lacks the sentinel check (see the counterexample). -/
theorem C2_apis_unknown_is_unknown (s : Stazione)
    (h : s.value = some UNKNOWN_VALUE) :
    s.create_station_message = (none, "") := by
  simp [Stazione.create_station_message, h, apisValueAlarm]

/-- C2 amended, witness at a concrete station. -/
theorem C2_apis_unknown_is_unknown_witness :
    stationB.value = some UNKNOWN_VALUE ∧
    stationB.create_station_message = (none, "") :=
  ⟨rfl, C2_apis_unknown_is_unknown stationB rfl⟩

/-- C3: an enrichment run over stations A, B where B's series fetch raised an
exception and A's succeeded with readings (t=100, v=1.0), (t=200, v=2.0)
leaves A updated to timestamp 200 and value 2.0, leaves B exactly its
pre-enrichment snapshot, logs B's failure, and lets no exception escape. -/
theorem C3_partial_failure_isolated (A B : Stazione) :
    enrich_data [A, B]
        [Except.ok [⟨100, 1⟩, ⟨200, 2⟩], Except.error PyError.httpStatusError] =
      ⟨[{ A with value := some 2, timestamp := 200 }, B], [B.nomestaz], none⟩ := by
  rfl

/-- C10: constructing a station with `value = 0.0` — a real, non-null
reading — still replaces `currentValue` by the UNKNOWN sentinel, because
`self.value = self.value or UNKNOWN_VALUE` triggers on any falsy value. -/
theorem C10_zero_value_becomes_unknown (time : Int) (ids : String) (ord : Int)
    (nome lo la : String) (g1 g2 g3 : Rat) :
    (mkStazione time ids ord nome lo la g1 g2 g3 (some 0)).value =
      some UNKNOWN_VALUE := by
  simp [mkStazione, Stazione.postInit, pyOrFloat]

/-- C5 counterexample: the claim asserts `v == orange` yields Yellow for
every combination of threshold values, but with thresholds
yellow = 2, orange = 1, red = 3 and v = 1 = orange the first rule
`v <= yellow` wins and the ladder yields Green. -/
theorem C5_orange_boundary_can_be_green :
    alarmLadder 1 2 1 3 = "🟢" ∧ ("🟢" : String) ≠ "🟡" := by
  refine ⟨?_, by simp⟩
  norm_num [alarmLadder]

/-- C5 amended: the ladder evaluates its rules in order, first match wins:
`v <= yellow` → Green, `yellow < v <= orange` → Yellow,
`orange < v <= red` → Orange, `v > red` → Red; and provided the thresholds
are strictly ascending (yellow < orange < red) the boundary cases are
deterministic as the claim states: `v == yellow` → Green,
`v == orange` → Yellow, `v == red` → Orange.  For unordered thresholds an
earlier rule can win on a boundary (see the counterexample). -/
theorem C5_ladder_rules (v yellow orange red : Rat)
    (h1 : yellow < orange) (h2 : orange < red) :
    (v ≤ yellow → alarmLadder v yellow orange red = "🟢") ∧
    (yellow < v → v ≤ orange → alarmLadder v yellow orange red = "🟡") ∧
    (orange < v → v ≤ red → alarmLadder v yellow orange red = "🟠") ∧
    (red < v → alarmLadder v yellow orange red = "🔴") ∧
    alarmLadder yellow yellow orange red = "🟢" ∧
    alarmLadder orange yellow orange red = "🟡" ∧
    alarmLadder red yellow orange red = "🟠" := by
  unfold alarmLadder
  refine ⟨?_, ?_, ?_, ?_, ?_, ?_, ?_⟩
  · intro h; rw [if_pos h]
  · intro ha hb
    rw [if_neg (by linarith), if_pos ⟨ha, hb⟩]
  · intro ha hb
    rw [if_neg (by linarith), if_neg (by rintro ⟨-, h⟩; linarith),
      if_pos ⟨by linarith, hb⟩]
  · intro h
    rw [if_neg (by linarith), if_neg (by rintro ⟨-, hb⟩; linarith),
      if_neg (by rintro ⟨-, hb⟩; linarith)]
  · rw [if_pos le_rfl]
  · rw [if_neg (by linarith), if_pos ⟨h1, le_rfl⟩]
  · rw [if_neg (by linarith), if_neg (by rintro ⟨-, hb⟩; linarith),
      if_pos ⟨by linarith, le_rfl⟩]

/-- C5 amended, witness at v = 1 with thresholds 1 < 2 < 3: the
`v == yellow` boundary yields Green. -/
theorem C5_ladder_rules_witness :
    (1 : Rat) < 2 ∧ (2 : Rat) < 3 ∧ alarmLadder 1 1 2 3 = "🟢" :=
  ⟨by norm_num, by norm_num,
    (C5_ladder_rules 1 1 2 3 (by norm_num) (by norm_num)).2.2.2.2.1⟩

/-- C6: for every station whose series fetch succeeded with a non-empty
reading list (at any position of the run, provided the loop reaches it,
i.e. no earlier station's result is an empty success, which would abort the
loop with `ValueError`), the coordinator overwrites the station's `value`
and `timestamp` together from one and the same reading of its list, and
that reading attains the maximum `time` — the two fields remain a matched
pair, never updated independently. -/
theorem C6_update_is_matched_pair (pre : List (Stazione × FetchResult))
    (hpre : ∀ p ∈ pre, p.2 ≠ Except.ok ([] : List Valore))
    (s : Stazione) (d : Valore) (ds : List Valore)
    (rest : List (Stazione × FetchResult)) :
    ∃ m, m ∈ d :: ds ∧ (∀ x ∈ d :: ds, x.t ≤ m.t) ∧
      (enrichLoop
          (pre ++ (s, Except.ok (d :: ds)) :: rest)).stations.get? pre.length =
        some { s with value := some m.v, timestamp := m.t } := by
  refine ⟨maxByT d ds, maxByT_mem d ds, maxByT_ge d ds, ?_⟩
  induction pre with
  | nil => rfl
  | cons p pre' ih =>
    have hp2 := hpre p (List.mem_cons_self _ _)
    have hpre' : ∀ q ∈ pre', q.2 ≠ Except.ok ([] : List Valore) :=
      fun q hq => hpre q (List.mem_cons.mpr (Or.inr hq))
    obtain ⟨s', r'⟩ := p
    match r' with
    | Except.error e => simpa [enrichLoop] using ih hpre'
    | Except.ok [] => exact absurd rfl hp2
    | Except.ok (e :: es) => simpa [enrichLoop] using ih hpre'

/-- C6 witness: a concrete one-station run with readings
(t=100, v=1), (t=200, v=2). -/
theorem C6_update_is_matched_pair_witness :
    (∀ p ∈ ([] : List (Stazione × FetchResult)),
      p.2 ≠ Except.ok ([] : List Valore)) ∧
    ∃ m, m ∈ [Valore.mk 100 1, Valore.mk 200 2] ∧
      (∀ x ∈ [Valore.mk 100 1, Valore.mk 200 2], x.t ≤ m.t) ∧
      (enrichLoop
          (([] : List (Stazione × FetchResult)) ++
            (stationA, Except.ok [Valore.mk 100 1, Valore.mk 200 2]) ::
            [])).stations.get?
          (List.length ([] : List (Stazione × FetchResult))) =
        some { stationA with value := some m.v, timestamp := m.t } :=
  ⟨fun p hp => absurd hp (List.not_mem_nil p),
    C6_update_is_matched_pair [] (fun p hp => absurd hp (List.not_mem_nil p))
      stationA (Valore.mk 100 1) [Valore.mk 200 2] []⟩

theorem buildStazione_error_is_typeError (time : Int) (r : RosterRecord)
    (e : PyError) (h : buildStazione time r = Except.error e) :
    e = PyError.typeError := by
  unfold buildStazione at h
  split at h
  · simp at h
  · simpa using h.symm

theorem buildStazione_none_nomestaz (time : Int) (r : RosterRecord)
    (h : r.nomestaz = none) :
    buildStazione time r = Except.error PyError.typeError := by
  unfold buildStazione
  split <;> simp_all

theorem buildRoster_missing_field (time : Int) (data : List RosterRecord)
    (h : ∃ r ∈ data, r.hasTime = false ∧ r.nomestaz = none) :
    buildRoster time data = Except.error PyError.typeError := by
  induction data with
  | nil => simp at h
  | cons r' rest ih =>
    obtain ⟨r, hmem, hrt, hrn⟩ := h
    rcases List.mem_cons.mp hmem with heq | hmem'
    · subst heq
      rw [buildRoster, if_neg (by simp [hrt]),
        buildStazione_none_nomestaz time r hrn]
    · have hrest := ih ⟨r, hmem', hrt, hrn⟩
      rw [buildRoster]
      by_cases ht : r'.hasTime
      · rw [if_pos ht]; exact hrest
      · rw [if_neg ht]
        match hb : buildStazione time r' with
        | Except.error e =>
          rw [buildStazione_error_is_typeError time r' e hb]
        | Except.ok s => rw [hrest]

/-- C4 counterexample: a roster response whose single record lacks
`nomestaz` makes `fetch_stations_data` fail with an uncaught `TypeError`
from the dataclass constructor — an unhandled escape, not the logged
`MalformedResponseError` (`KeyError`/`IndexError`) path the claim names. -/
theorem C4_missing_nomestaz_is_not_malformed :
    fetch_stations_data 0 [badRecord] =
      Except.error (FetchError.unhandled PyError.typeError) ∧
    FetchError.unhandled PyError.typeError ≠ FetchError.malformed :=
  ⟨rfl, by simp⟩

/-- C4 amended: a roster response in which some station record (one not
carrying a `time` key) lacks the expected `nomestaz` field causes the whole
`fetch_stations_data` call to fail — it never yields a partial roster — but
the failure is an uncaught `TypeError` escaping the
`except (KeyError, IndexError)` clause without being logged, not the logged
`MalformedResponseError` path the spec describes. -/
theorem C4_missing_nomestaz_fails_whole_fetch (time : Int)
    (data : List RosterRecord)
    (h : ∃ r ∈ data, r.hasTime = false ∧ r.nomestaz = none) :
    fetch_stations_data time data =
      Except.error (FetchError.unhandled PyError.typeError) := by
  rw [fetch_stations_data, buildRoster_missing_field time data h]

/-- C4 amended, witness at the concrete malformed roster. -/
theorem C4_missing_nomestaz_fails_whole_fetch_witness :
    (∃ r ∈ [badRecord], r.hasTime = false ∧ r.nomestaz = none) ∧
    fetch_stations_data 0 [badRecord] =
      Except.error (FetchError.unhandled PyError.typeError) :=
  ⟨⟨badRecord, List.mem_singleton.mpr rfl, rfl, rfl⟩,
    C4_missing_nomestaz_fails_whole_fetch 0 [badRecord]
      ⟨badRecord, List.mem_singleton.mpr rfl, rfl, rfl⟩⟩

theorem buildRoster_all_ok (time : Int) (data : List RosterRecord)
    (h : ∀ r ∈ data, r.hasTime = false →
      ∃ s, buildStazione time r = Except.ok s) :
    ∃ l, buildRoster time data = Except.ok l ∧
      l.length = (data.filter (fun r => !r.hasTime)).length := by
  induction data with
  | nil => exact ⟨[], rfl, rfl⟩
  | cons r rest ih =>
    have hrest : ∀ q ∈ rest, q.hasTime = false →
        ∃ s, buildStazione time q = Except.ok s :=
      fun q hq => h q (List.mem_cons.mpr (Or.inr hq))
    obtain ⟨l, hl, hlen⟩ := ih hrest
    by_cases ht : r.hasTime
    · refine ⟨l, ?_, ?_⟩
      · rw [buildRoster, if_pos ht]; exact hl
      · simpa [ht] using hlen
    · obtain ⟨s, hs⟩ :=
        h r (List.mem_cons_self _ _) (Bool.not_eq_true _ ▸ by simpa using ht)
      refine ⟨s :: l, ?_, ?_⟩
      · rw [buildRoster, if_neg ht, hs, hl]
      · simpa [ht] using congrArg Nat.succ hlen

theorem filter_not_hasTime_length (data : List RosterRecord) :
    (data.filter (fun r => !r.hasTime)).length =
      data.length - (data.filter (fun r => r.hasTime)).length := by
  induction data with
  | nil => rfl
  | cons r rest ih =>
    have hle := List.length_filter_le (fun q : RosterRecord => q.hasTime) rest
    cases ht : r.hasTime
    · simp [ht, ih]
      omega
    · simp [ht, ih]

/-- C7: a successful roster response of N records of which exactly one
carries a `time` key (and whose remaining records each convert to a
Station) yields exactly N − 1 Stations: the `time`-bearing record is
excluded and every other record is converted. -/
theorem C7_time_record_excluded (time : Int) (data : List RosterRecord)
    (hone : (data.filter (fun r => r.hasTime)).length = 1)
    (hok : ∀ r ∈ data, r.hasTime = false →
      ∃ s, buildStazione time r = Except.ok s) :
    ∃ l, fetch_stations_data time data = Except.ok l ∧
      l.length = data.length - 1 := by
  obtain ⟨l, hl, hlen⟩ := buildRoster_all_ok time data hok
  refine ⟨l, ?_, ?_⟩
  · rw [fetch_stations_data, hl]
  · rw [hlen, filter_not_hasTime_length, hone]

/-- C7 witness: a two-record roster with one `time`-bearing echo record and
one well-formed station record yields exactly one Station. -/
theorem C7_time_record_excluded_witness :
    (([timeRecord, goodRecord].filter (fun r => r.hasTime)).length = 1) ∧
    ∃ l, fetch_stations_data 7 [timeRecord, goodRecord] = Except.ok l ∧
      l.length = [timeRecord, goodRecord].length - 1 := by
  refine ⟨rfl, C7_time_record_excluded 7 [timeRecord, goodRecord] rfl ?_⟩
  intro r hr hfalse
  rcases List.mem_cons.mp hr with h | h
  · subst h; simp [timeRecord] at hfalse
  · rw [List.mem_singleton.mp h]
    exact ⟨stationS, rfl⟩

/-- C8: a roster record whose `value` field is JSON `null` yields a Station
whose `currentValue` equals the UNKNOWN sentinel; and no constructed
Station ever has a null `value` — the dataclass constructor
(`__post_init__`) always leaves `value` set. -/
theorem C8_null_value_normalized (time : Int) (r : RosterRecord) (s : Stazione)
    (hnull : r.value = some none)
    (hok : buildStazione time r = Except.ok s) :
    s.value = some UNKNOWN_VALUE ∧
    ∀ (t : Int) (ids : String) (ord : Int) (nome lo la : String)
      (g1 g2 g3 : Rat) (v : Option Rat),
      ((mkStazione t ids ord nome lo la g1 g2 g3 v).value).isSome = true := by
  constructor
  · unfold buildStazione at hok
    split at hok
    · rename_i ids ord nome lo la g1 g2 g3 v heq
      rw [hnull] at heq
      injection heq with hv
      subst hv
      simp only [Except.ok.injEq] at hok
      rw [← hok]
      simp only [mkStazione, Stazione.postInit, pyOrFloat]
      rw [if_neg (by norm_num [UNKNOWN_VALUE])]
    · simp at hok
  · intro t ids ord nome lo la g1 g2 g3 v
    simp [mkStazione, Stazione.postInit]

/-- C8 witness: the concrete record with `value: null` builds a station
whose value is the sentinel. -/
theorem C8_null_value_normalized_witness :
    goodRecord.value = some none ∧
    buildStazione 7 goodRecord = Except.ok stationS ∧
    stationS.value = some UNKNOWN_VALUE :=
  ⟨rfl, rfl, (C8_null_value_normalized 7 goodRecord stationS rfl rfl).1⟩

/-- C9: projecting a Station to its persistable record (`to_dict`, with
`Decimal(str(x))` preserving each numeric value exactly) and reconstructing
a Station from that record — the reconstruction is modelled from the spec,
the storage collaborator being outside the provided sources — restores
every semantic field exactly, numeric fields compared as exact values. -/
theorem C9_to_dict_roundtrip (s : Stazione) (v : Rat) (h : s.value = some v) :
    stazioneFromRecord (Stazione.to_dict s) = s := by
  cases s
  simp_all [Stazione.to_dict, stazioneFromRecord]

/-- C9 witness at a concrete constructed station. -/
theorem C9_to_dict_roundtrip_witness :
    stationA.value = some 5 ∧
    stazioneFromRecord (Stazione.to_dict stationA) = stationA :=
  ⟨rfl, C9_to_dict_roundtrip stationA 5 rfl⟩

end Erfiume
